import Mathlib

/-
Shallow embedding of the image-generation core of this repository:
the request client `generateImage` (src/geminiService.ts, first part) and the
generation controller `handleGenerate` / `handleSelectKey` (second part of the
same file, the Generator component). External collaborators that are not part
of the sources (the mock backend's `updateUserCredits` and `saveImage`, and the
constant `IMAGE_COST` from constants.ts) are modelled from the spec, each
marked as such in its doc comment.
-/

namespace ImgGen

/-- The three resolution tiers accepted by the client, the TS union
type given to the `size` argument of `generateImage`. -/
inductive Size where
  | r1K
  | r2K
  | r4K
deriving DecidableEq, Repr

/-- An inline image payload of a response part: `part.inlineData`, whose
`data` field holds the base64 string returned by the service. -/
structure InlineData where
  data : String
deriving DecidableEq, Repr

/-- One content part of a candidate; `inlineData` is `none` when the part
carries no image payload (e.g. a text part). -/
structure Part where
  inlineData : Option InlineData
deriving DecidableEq, Repr

/-- `candidate.content`; its `parts` field may be absent (`none`) or hold a
list of parts. -/
structure Content where
  parts : Option (List Part)
deriving DecidableEq, Repr

/-- One candidate of the service response. -/
structure Candidate where
  content : Content
deriving DecidableEq, Repr

/-- The service response; `candidates` is absent (`none`) or a list.
A present empty list is distinct from an absent field, matching the
JavaScript truthiness of an empty array. -/
structure GenResponse where
  candidates : Option (List Candidate)
deriving DecidableEq, Repr

/-- Errors that can escape the client: a thrown `new Error(msg)`, the
TypeError raised by a property access on `undefined`, or an opaque error
thrown by the underlying SDK call (network, auth, quota). -/
inductive JsError where
  | error (msg : String)
  | typeError
  | upstream (id : Nat) (msg : String)
deriving DecidableEq, Repr

/-- Successful result of the client: `{ imageUrl }`. -/
structure GenResult where
  imageUrl : String
deriving DecidableEq, Repr

/-- The single outbound request built by `generateImage`: fixed model
identifier, one text part holding the prompt, fixed square aspect ratio, the
requested size tier, and the resolved API key string. -/
structure GenRequest where
  model : String
  parts : List String
  aspectRatio : String
  imageSize : Size
  apiKey : String
deriving DecidableEq, Repr

/-- Request construction of `generateImage` (src/geminiService.ts lines
22-39): constant model name, `contents.parts = [{text: prompt}]`,
`aspectRatio: "1:1"`, `imageSize: size`, and the caller-resolved key. -/
def buildRequest (prompt : String) (size : Size) (apiKey : String) : GenRequest :=
  { model := "gemini-3-pro-image-preview"
    parts := [prompt]
    aspectRatio := "1:1"
    imageSize := size
    apiKey := apiKey }

/-- The part-scanning loop (lines 45-51): iterate over the parts, and on the
first part with `inlineData` set `imageUrl` to the PNG data URI wrapping the
payload verbatim, then break; `imageUrl` stays `""` when no part carries an
image. -/
def scanParts : List Part → String
  | [] => ""
  | p :: rest =>
    match p.inlineData with
    | some d => "data:image/png;base64," ++ d.data
    | none => scanParts rest

/-- Response handling of `generateImage` (lines 41-56). The guard
`response.candidates && response.candidates[0].content.parts` evaluates left
to right: an absent `candidates` is falsy (loop skipped, `imageUrl` stays
empty, the no-image Error is thrown); a present but empty `candidates` array
is truthy, so `candidates[0]` is `undefined` and the `.content` access throws
a TypeError; otherwise only the first candidate's parts are scanned, and an
empty `imageUrl` afterwards raises the no-image Error. -/
def parseResponse (r : GenResponse) : Except JsError GenResult :=
  match r.candidates with
  | none => .error (JsError.error "No image generated in response")
  | some cands =>
    match cands with
    | [] => .error JsError.typeError
    | c :: _ =>
      match c.content.parts with
      | none => .error (JsError.error "No image generated in response")
      | some ps =>
        let imageUrl := scanParts ps
        if imageUrl = "" then .error (JsError.error "No image generated in response")
        else .ok { imageUrl := imageUrl }

/-- The request client (src/geminiService.ts lines 7-64). `network` gives the
outcome of the one `ai.models.generateContent` call on the request the client
builds. The key is resolved as `process.env.API_KEY || ''` (absent key passes
through as the empty string). The catch block logs and rethrows the caught
error unmodified, so both upstream errors and the client's own parse errors
leave with their original value. -/
def generateImage (prompt : String) (size : Size) (apiKey : Option String)
    (network : GenRequest → Except JsError GenResponse) : Except JsError GenResult :=
  match network (buildRequest prompt size (apiKey.getD "")) with
  | .error e => .error e
  | .ok resp => parseResponse resp

/-- A user record as read from local storage: the fields the controller
uses, its id and its credit balance. -/
structure User where
  id : String
  credits : Nat
deriving DecidableEq, Repr

/-- One history record written by `saveImage`. -/
structure HistoryEntry where
  accountId : String
  prompt : String
  imageReference : String
  modelIdentifier : String
  resolution : Size
deriving DecidableEq, Repr

/-- The external backend state: each account id's credit balance, and the
append-only history log. -/
structure Backend where
  credits : String → Nat
  history : List HistoryEntry

/-- Modelled from the spec: `updateUserCredits` lives in
`services/mockBackend`, which is absent from the sources. Spec section 6:
account store `debit(accountId, amount) → updatedAccount`, "never allows
balance below zero" (Nat subtraction clamps at zero), returning the updated
account record. -/
def updateUserCredits (b : Backend) (id : String) (amount : Nat) : Backend × User :=
  let newBal := b.credits id - amount
  ({ b with credits := fun i => if i = id then newBal else b.credits i },
   { id := id, credits := newBal })

/-- Modelled from the spec: `saveImage` lives in `services/mockBackend`,
which is absent from the sources. Spec section 6: history store
`append(accountId, prompt, imageReference, modelIdentifier, resolution)`,
append-only. -/
def saveImage (b : Backend) (accountId prompt imageReference modelIdentifier : String)
    (resolution : Size) : Backend :=
  { b with history := b.history ++
      [{ accountId := accountId, prompt := prompt, imageReference := imageReference,
         modelIdentifier := modelIdentifier, resolution := resolution }] }

/-- Modelled from the spec: the constant `IMAGE_COST` lives in constants.ts,
which is absent from the sources; the spec's scenarios use a fixed cost of
10 credits. -/
def IMAGE_COST : Nat := 10

/-- The component state the controller reads and writes: prompt, size,
busy flag, result, error message, loaded user record, credential flag. -/
structure GenState where
  prompt : String
  size : Size
  isGenerating : Bool
  generatedImage : Option String
  error : String
  user : Option User
  hasApiKey : Bool

/-- The controller's environment: whether `window.aistudio` (with its
`openSelectKey` capability) is present, the outcome of a first and, if
reached, a second `openSelectKey` call (`none` is success, `some msg` is a
rejection whose error carries `msg`), the value of `process.env.API_KEY`,
and the outcome of the one network call per request. -/
structure Env where
  aistudio : Bool
  select1 : Option String
  select2 : Option String
  apiKey : Option String
  network : GenRequest → Except JsError GenResponse

/-- Outcome of `handleSelectKey`: the component state afterwards, how many
times `openSelectKey` ran, how many alerts were shown, and the exception (if
any) that escaped the handler. -/
structure SelectOut where
  st : GenState
  calls : Nat
  alerts : Nat
  thrown : Option String

/-- `listStartsWith l pat` holds when `pat` is a prefix of `l`
(character-wise, Bool-valued). -/
def listStartsWith : List Char → List Char → Bool
  | _, [] => true
  | [], _ :: _ => false
  | a :: as, b :: bs => a == b && listStartsWith as bs

/-- `listHasSub l pat`: `pat` occurs contiguously somewhere in `l`. -/
def listHasSub : List Char → List Char → Bool
  | [], pat => listStartsWith [] pat
  | a :: as, pat => listStartsWith (a :: as) pat || listHasSub as pat

/-- JavaScript `s.includes(pat)`. -/
def strIncludes (s pat : String) : Bool :=
  listHasSub s.data pat.data

/-- The catch guard of `handleSelectKey` (line 119): `e.message &&
e.message.includes("Requested entity was not found")`; an absent or empty
message is falsy. -/
def entityNotFoundCheck (msg : String) : Bool :=
  !(msg == "") && strIncludes msg "Requested entity was not found"

/-- `handleSelectKey` (lines 109-129): when `window.aistudio.openSelectKey`
exists, call it; on success set the credential flag. When it rejects with a
message containing "Requested entity was not found": clear the flag, alert,
call `openSelectKey` once more and set the flag; a rejection of that second
call escapes the handler (the flag is still cleared at that point). Any
other rejection is only logged. -/
def handleSelectKey (st : GenState) (env : Env) : SelectOut :=
  if env.aistudio then
    match env.select1 with
    | none => { st := { st with hasApiKey := true }, calls := 1, alerts := 0, thrown := none }
    | some msg =>
      if entityNotFoundCheck msg then
        match env.select2 with
        | none => { st := { st with hasApiKey := true }, calls := 2, alerts := 1, thrown := none }
        | some msg2 =>
          { st := { st with hasApiKey := false }, calls := 2, alerts := 1, thrown := some msg2 }
      else { st := st, calls := 1, alerts := 0, thrown := none }
  else { st := st, calls := 0, alerts := 0, thrown := none }

/-- The credential gate inside `handleGenerate` (lines 140-144): when the
flag is down and `window.aistudio` exists, run `handleSelectKey`; otherwise
nothing happens. -/
def selGate (st : GenState) (env : Env) : SelectOut :=
  if !st.hasApiKey && env.aistudio then handleSelectKey st env
  else { st := st, calls := 0, alerts := 0, thrown := none }

/-- The error message set by the pre-flight credit check (line 136). -/
def insufficientCreditsMsg : String :=
  "Not enough credits. You need " ++ toString IMAGE_COST ++ " credits to generate an image."

/-- The generic error message of the catch block (line 166). -/
def genericFailureMsg : String :=
  "Failed to generate image. Please try again or check your API key settings."

/-- Full outcome of one `handleGenerate` run: component state, backend
state, the outbound network requests issued, the debits performed, the
window events dispatched, the `openSelectKey` call count, the alert count,
and the exception (if any) that escaped the handler unhandled. -/
structure GenOut where
  st : GenState
  backend : Backend
  requests : List GenRequest
  debits : List (String × Nat)
  events : List String
  selectCalls : Nat
  alerts : Nat
  thrown : Option String

/-- `handleGenerate` (lines 131-170): return immediately when no user is
loaded; reject with the credits message when `user.credits < IMAGE_COST`;
run the credential gate (whose rejection escapes unhandled, before any
network activity); then set busy/clear error/clear image and call
`generateImage(prompt, size)`. On success: show the image, debit
`IMAGE_COST` via `updateUserCredits`, store the returned user, dispatch the
`user-updated` event, and append a history record via `saveImage` with the
prompt, the image url, the constant model id, and the size. On error: set
the generic message. Finally clear the busy flag. -/
def handleGenerate (st : GenState) (b : Backend) (env : Env) : GenOut :=
  match st.user with
  | none =>
    { st := st, backend := b, requests := [], debits := [], events := [],
      selectCalls := 0, alerts := 0, thrown := none }
  | some user =>
    if user.credits < IMAGE_COST then
      { st := { st with error := insufficientCreditsMsg }, backend := b, requests := [],
        debits := [], events := [], selectCalls := 0, alerts := 0, thrown := none }
    else
      let sel := selGate st env
      match sel.thrown with
      | some m =>
        { st := sel.st, backend := b, requests := [], debits := [], events := [],
          selectCalls := sel.calls, alerts := sel.alerts, thrown := some m }
      | none =>
        let st2 := { sel.st with isGenerating := true, error := "", generatedImage := none }
        let req := buildRequest st.prompt st.size (env.apiKey.getD "")
        match generateImage st.prompt st.size env.apiKey env.network with
        | .ok result =>
          let bu := updateUserCredits b user.id IMAGE_COST
          let st3 := { st2 with generatedImage := some result.imageUrl, user := some bu.2 }
          let b2 := saveImage bu.1 user.id st.prompt result.imageUrl
                      "gemini-3-pro-image-preview" st.size
          { st := { st3 with isGenerating := false }, backend := b2, requests := [req],
            debits := [(user.id, IMAGE_COST)], events := ["user-updated"],
            selectCalls := sel.calls, alerts := sel.alerts, thrown := none }
        | .error _ =>
          { st := { st2 with error := genericFailureMsg, isGenerating := false },
            backend := b, requests := [req], debits := [], events := [],
            selectCalls := sel.calls, alerts := sel.alerts, thrown := none }

/-! Run characterizations of `handleGenerate`, shared by the claim theorems. -/

theorem handleGenerate_noUser_eq (st : GenState) (b : Backend) (env : Env)
    (h : st.user = none) :
    handleGenerate st b env =
      { st := st, backend := b, requests := [], debits := [], events := [],
        selectCalls := 0, alerts := 0, thrown := none } := by
  unfold handleGenerate
  rw [h]

theorem handleGenerate_insufficient_eq (st : GenState) (b : Backend) (env : Env) (u : User)
    (hu : st.user = some u) (hc : u.credits < IMAGE_COST) :
    handleGenerate st b env =
      { st := { st with error := insufficientCreditsMsg }, backend := b, requests := [],
        debits := [], events := [], selectCalls := 0, alerts := 0, thrown := none } := by
  unfold handleGenerate
  rw [hu]
  simp [hc]

theorem handleGenerate_thrown_eq (st : GenState) (b : Backend) (env : Env) (u : User)
    (m : String) (hu : st.user = some u) (hc : ¬ u.credits < IMAGE_COST)
    (hg : (selGate st env).thrown = some m) :
    handleGenerate st b env =
      { st := (selGate st env).st, backend := b, requests := [], debits := [], events := [],
        selectCalls := (selGate st env).calls, alerts := (selGate st env).alerts,
        thrown := some m } := by
  unfold handleGenerate
  rw [hu]
  simp [hc, hg]

theorem handleGenerate_success_eq (st : GenState) (b : Backend) (env : Env) (u : User)
    (r : GenResult) (hu : st.user = some u) (hc : ¬ u.credits < IMAGE_COST)
    (hg : (selGate st env).thrown = none)
    (hok : generateImage st.prompt st.size env.apiKey env.network = Except.ok r) :
    handleGenerate st b env =
      { st := { (selGate st env).st with
                  isGenerating := false
                  error := ""
                  generatedImage := some r.imageUrl
                  user := some { id := u.id, credits := b.credits u.id - IMAGE_COST } },
        backend := { credits := fun i => if i = u.id then b.credits u.id - IMAGE_COST
                                         else b.credits i,
                     history := b.history ++
                       [{ accountId := u.id, prompt := st.prompt, imageReference := r.imageUrl,
                          modelIdentifier := "gemini-3-pro-image-preview",
                          resolution := st.size }] },
        requests := [buildRequest st.prompt st.size (env.apiKey.getD "")],
        debits := [(u.id, IMAGE_COST)], events := ["user-updated"],
        selectCalls := (selGate st env).calls, alerts := (selGate st env).alerts,
        thrown := none } := by
  unfold handleGenerate
  rw [hu]
  simp [hc, hg, hok, updateUserCredits, saveImage]

theorem handleGenerate_error_eq (st : GenState) (b : Backend) (env : Env) (u : User)
    (e : JsError) (hu : st.user = some u) (hc : ¬ u.credits < IMAGE_COST)
    (hg : (selGate st env).thrown = none)
    (herr : generateImage st.prompt st.size env.apiKey env.network = Except.error e) :
    handleGenerate st b env =
      { st := { (selGate st env).st with
                  isGenerating := false
                  error := genericFailureMsg
                  generatedImage := none },
        backend := b, requests := [buildRequest st.prompt st.size (env.apiKey.getD "")],
        debits := [], events := [], selectCalls := (selGate st env).calls,
        alerts := (selGate st env).alerts, thrown := none } := by
  unfold handleGenerate
  rw [hu]
  simp [hc, hg, herr]

/-- Whenever the request client fails, `handleGenerate` leaves the backend
untouched and performs no debit, on every path. -/
theorem handleGenerate_backend_of_error (st : GenState) (b : Backend) (env : Env) (e : JsError)
    (herr : generateImage st.prompt st.size env.apiKey env.network = Except.error e) :
    (handleGenerate st b env).backend = b ∧ (handleGenerate st b env).debits = [] := by
  cases hu : st.user with
  | none => rw [handleGenerate_noUser_eq st b env hu]; exact ⟨rfl, rfl⟩
  | some u =>
    by_cases hc : u.credits < IMAGE_COST
    · rw [handleGenerate_insufficient_eq st b env u hu hc]; exact ⟨rfl, rfl⟩
    · cases hg : (selGate st env).thrown with
      | some m => rw [handleGenerate_thrown_eq st b env u m hu hc hg]; exact ⟨rfl, rfl⟩
      | none => rw [handleGenerate_error_eq st b env u e hu hc hg herr]; exact ⟨rfl, rfl⟩

/-! Lemmas about the response scan. -/

/-- A block of parts with no image payload contributes nothing to the scan. -/
theorem scanParts_skip (pre l : List Part)
    (h : pre.all (fun q => q.inlineData.isNone) = true) :
    scanParts (pre ++ l) = scanParts l := by
  induction pre with
  | nil => rfl
  | cons p ps ih =>
    rw [List.all_cons, Bool.and_eq_true] at h
    obtain ⟨h1, h2⟩ := h
    cases hp : p.inlineData with
    | none => rw [List.cons_append]; simp only [scanParts, hp]; exact ih h2
    | some d => rw [hp] at h1; simp at h1

/-- Parts carrying no image scan to the empty url. -/
theorem scanParts_eq_empty (ps : List Part)
    (h : ps.all (fun q => q.inlineData.isNone) = true) :
    scanParts ps = "" := by
  have := scanParts_skip ps [] h
  rw [List.append_nil] at this
  rw [this]
  rfl

/-- Responses whose candidates field is absent, or whose first candidate has
absent parts or only image-free parts, parse to the no-image Error. -/
def firstCandidateNoImage (r : GenResponse) : Bool :=
  match r.candidates with
  | none => true
  | some [] => false
  | some (c :: _) =>
    match c.content.parts with
    | none => true
    | some ps => ps.all fun p => p.inlineData.isNone

theorem parseResponse_noImage (r : GenResponse) (h : firstCandidateNoImage r = true) :
    parseResponse r = Except.error (JsError.error "No image generated in response") := by
  obtain ⟨ocands⟩ := r
  cases ocands with
  | none => rfl
  | some cands =>
    cases cands with
    | nil => simp [firstCandidateNoImage] at h
    | cons c rest =>
      obtain ⟨⟨oparts⟩⟩ := c
      cases oparts with
      | none => rfl
      | some ps =>
        have hall : ps.all (fun p => p.inlineData.isNone) = true := by
          simpa [firstCandidateNoImage] using h
        have hempty : scanParts ps = "" := scanParts_eq_empty ps hall
        simp [parseResponse, hempty]

/-- The PNG data URI wrapping a payload is never the empty string, so the
no-image guard does not fire once a part carried an image. -/
theorem dataUri_ne_empty (d : String) : ("data:image/png;base64," ++ d) ≠ "" := by
  intro h
  have h2 := congrArg String.length h
  rw [String.length_append] at h2
  have h22 : ("data:image/png;base64," : String).length = 22 := rfl
  have h0 : ("" : String).length = 0 := rfl
  rw [h22, h0] at h2
  omega

/-- Parsing a response whose first candidate's parts are an image-free block
followed by an image part returns that part's payload wrapped in the PNG data
URI, whatever parts and candidates follow. -/
theorem parseResponse_first_image (pre post : List Part) (d : InlineData)
    (crest : List Candidate)
    (hpre : pre.all (fun q => q.inlineData.isNone) = true) :
    parseResponse
        { candidates := some
            ({ content := { parts := some (pre ++ { inlineData := some d } :: post) } } :: crest) }
      = Except.ok { imageUrl := "data:image/png;base64," ++ d.data } := by
  have hscan : scanParts (pre ++ { inlineData := some d } :: post)
      = "data:image/png;base64," ++ d.data := by
    rw [scanParts_skip pre _ hpre]
    rfl
  simp [parseResponse, hscan, dataUri_ne_empty d.data]

/-! Concrete inputs used by the witnesses. -/

/-- A response whose single candidate carries one image part. -/
def demoResp : GenResponse :=
  { candidates := some [{ content := { parts := some [{ inlineData := some { data := "IMG" } }] } }] }

/-- A network that answers every request with `demoResp`. -/
def demoNet : GenRequest → Except JsError GenResponse := fun _ => Except.ok demoResp

/-- A user with exactly the fixed cost in credits. -/
def demoUser : User := { id := "u1", credits := 10 }

/-- A backend agreeing with `demoUser` on the balance, with empty history. -/
def demoB : Backend := { credits := fun _ => 10, history := [] }

/-- A component state with `demoUser` loaded and the credential flag up. -/
def demoSt : GenState :=
  { prompt := "a cat", size := Size.r1K, isGenerating := false, generatedImage := none,
    error := "", user := some demoUser, hasApiKey := true }

/-- A healthy environment: `window.aistudio` present, selection succeeds,
a key is set, the network answers with `demoResp`. -/
def demoEnv : Env :=
  { aistudio := true, select1 := none, select2 := none, apiKey := some "KEY",
    network := demoNet }

/-- A user below the fixed cost, with matching state and backend. -/
def demoUser5 : User := { id := "u1", credits := 5 }

def demoSt5 : GenState := { demoSt with user := some demoUser5 }

def demoB5 : Backend := { credits := fun _ => 5, history := [] }

/-- An environment whose network call rejects with an upstream error. -/
def demoEnvFail : Env :=
  { demoEnv with network := fun _ => Except.error (JsError.upstream 7 "quota exceeded") }

/-- A response with one image-free part in its only candidate. -/
def noImgResp : GenResponse :=
  { candidates := some [{ content := { parts := some [{ inlineData := none }] } }] }

/-- An environment whose network answers with `noImgResp`. -/
def demoEnvNoImg : Env := { demoEnv with network := fun _ => Except.ok noImgResp }

/-- A response carrying its only image part in the second candidate. -/
def secondCandResp : GenResponse :=
  { candidates := some
      [{ content := { parts := some [] } },
       { content := { parts := some [{ inlineData := some { data := "IMG" } }] } }] }

/-- A response whose first candidate holds a text part, then the image part,
then a further image part. -/
def mixedResp : GenResponse :=
  { candidates := some
      [{ content :=
          { parts := some
              [{ inlineData := none },
               { inlineData := some { data := "IMG" } },
               { inlineData := some { data := "ZZZ" } }] } }] }

/-- State with the credential flag down. -/
def demoStNoKey : GenState := { demoSt with hasApiKey := false }

/-- Environment whose first selection attempt rejects with the
entity-not-found message and whose second succeeds. -/
def demoEnvEnf : Env := { demoEnv with select1 := some "Requested entity was not found" }

/-- State with no user loaded. -/
def demoStNoUser : GenState := { demoSt with user := none }

/-- A candidate with absent parts. -/
def cNoParts : Candidate := { content := { parts := none } }

/-- A candidate carrying an image part. -/
def cImg : Candidate :=
  { content := { parts := some [{ inlineData := some { data := "IMG" } }] } }

/-! The claim theorems. -/

/-- C1: for every submission in which the generation call succeeds, the
controller debits exactly the fixed image cost from the account (balance
after plus the cost equals balance before) and appends exactly one history
entry whose prompt, resolution and image reference match the submitted
prompt, the requested resolution tier and the returned image reference. -/
theorem C1_success_debits_fixed_cost_and_appends_history
    (st : GenState) (b : Backend) (env : Env) (u : User) (r : GenResult)
    (hu : st.user = some u) (hc : ¬ u.credits < IMAGE_COST)
    (hb : b.credits u.id = u.credits)
    (hg : (selGate st env).thrown = none)
    (hok : generateImage st.prompt st.size env.apiKey env.network = Except.ok r) :
    (handleGenerate st b env).backend.credits u.id + IMAGE_COST = b.credits u.id
    ∧ (handleGenerate st b env).backend.history = b.history ++
        [{ accountId := u.id, prompt := st.prompt, imageReference := r.imageUrl,
           modelIdentifier := "gemini-3-pro-image-preview", resolution := st.size }] := by
  rw [handleGenerate_success_eq st b env u r hu hc hg hok]
  refine ⟨?_, rfl⟩
  have hle : IMAGE_COST ≤ b.credits u.id := by
    rw [hb]
    exact Nat.le_of_not_lt hc
  simp [Nat.sub_add_cancel hle]

theorem C1_witness :
    (handleGenerate demoSt demoB demoEnv).backend.credits "u1" + IMAGE_COST
        = demoB.credits "u1"
    ∧ (handleGenerate demoSt demoB demoEnv).backend.history = demoB.history ++
        [{ accountId := "u1", prompt := "a cat",
           imageReference := "data:image/png;base64,IMG",
           modelIdentifier := "gemini-3-pro-image-preview", resolution := Size.r1K }] :=
  C1_success_debits_fixed_cost_and_appends_history demoSt demoB demoEnv demoUser
    { imageUrl := "data:image/png;base64,IMG" } rfl (by decide) rfl rfl rfl

/-- C2: for every account whose balance is strictly below the fixed image
cost, the submission is rejected before any network call and before any
credential check, the backend (balance and history) is unchanged, and the
surfaced error message cites the required amount. -/
theorem C2_insufficient_credits_rejected_preflight
    (st : GenState) (b : Backend) (env : Env) (u : User)
    (hu : st.user = some u) (hc : u.credits < IMAGE_COST) :
    (handleGenerate st b env).requests = []
    ∧ (handleGenerate st b env).selectCalls = 0
    ∧ (handleGenerate st b env).backend = b
    ∧ (handleGenerate st b env).st.error = insufficientCreditsMsg
    ∧ strIncludes (handleGenerate st b env).st.error (toString IMAGE_COST) = true := by
  rw [handleGenerate_insufficient_eq st b env u hu hc]
  refine ⟨rfl, rfl, rfl, rfl, ?_⟩
  show strIncludes insufficientCreditsMsg (toString IMAGE_COST) = true
  decide

theorem C2_witness :
    (handleGenerate demoSt5 demoB5 demoEnv).requests = []
    ∧ (handleGenerate demoSt5 demoB5 demoEnv).selectCalls = 0
    ∧ (handleGenerate demoSt5 demoB5 demoEnv).backend = demoB5
    ∧ (handleGenerate demoSt5 demoB5 demoEnv).st.error = insufficientCreditsMsg
    ∧ strIncludes (handleGenerate demoSt5 demoB5 demoEnv).st.error (toString IMAGE_COST)
        = true :=
  C2_insufficient_credits_rejected_preflight demoSt5 demoB5 demoEnv demoUser5 rfl (by decide)

/-- C5: every submission that passes the pre-flight credit check and then
fails at any later step (a rejection escaping the credential gate, or a
failing generation call) leaves the backend balance and history unchanged
and performs no debit. -/
theorem C5_postgate_failure_leaves_state
    (st : GenState) (b : Backend) (env : Env) (u : User)
    (hu : st.user = some u) (hc : ¬ u.credits < IMAGE_COST)
    (hfail : (selGate st env).thrown ≠ none
      ∨ ∃ e, generateImage st.prompt st.size env.apiKey env.network = Except.error e) :
    (handleGenerate st b env).backend = b ∧ (handleGenerate st b env).debits = [] := by
  rcases hfail with hth | ⟨e, he⟩
  · cases hg : (selGate st env).thrown with
    | none => exact absurd hg hth
    | some m =>
      rw [handleGenerate_thrown_eq st b env u m hu hc hg]
      exact ⟨rfl, rfl⟩
  · exact handleGenerate_backend_of_error st b env e he

theorem C5_witness :
    (handleGenerate demoSt demoB demoEnvFail).backend = demoB
    ∧ (handleGenerate demoSt demoB demoEnvFail).debits = [] :=
  C5_postgate_failure_leaves_state demoSt demoB demoEnvFail demoUser rfl (by decide)
    (Or.inr ⟨JsError.upstream 7 "quota exceeded", rfl⟩)

/-- C6: every error the underlying external call rejects with is propagated
by the request client to its caller as the very same value, neither wrapped
nor classified. -/
theorem C6_upstream_error_propagated_unmodified
    (prompt : String) (size : Size) (apiKey : Option String)
    (network : GenRequest → Except JsError GenResponse) (e : JsError)
    (h : network (buildRequest prompt size (apiKey.getD "")) = Except.error e) :
    generateImage prompt size apiKey network = Except.error e := by
  unfold generateImage
  rw [h]

theorem C6_witness :
    generateImage "a cat" Size.r1K (some "KEY")
        (fun _ => Except.error (JsError.upstream 7 "quota exceeded"))
      = Except.error (JsError.upstream 7 "quota exceeded") :=
  C6_upstream_error_propagated_unmodified "a cat" Size.r1K (some "KEY")
    (fun _ => Except.error (JsError.upstream 7 "quota exceeded"))
    (JsError.upstream 7 "quota exceeded") rfl

/-- C7: when the first credential-selection attempt rejects with an error
whose message signals that the requested entity was not found, the selection
flow runs exactly once more (two `openSelectKey` calls in total, with one
alert) before generation proceeds with its one network request. -/
theorem C7_entity_not_found_retried_once
    (st : GenState) (b : Backend) (env : Env) (u : User) (msg : String)
    (hu : st.user = some u) (hc : ¬ u.credits < IMAGE_COST)
    (hkey : st.hasApiKey = false) (hai : env.aistudio = true)
    (h1 : env.select1 = some msg) (hmsg : entityNotFoundCheck msg = true)
    (h2 : env.select2 = none) :
    (handleGenerate st b env).selectCalls = 2
    ∧ (handleGenerate st b env).alerts = 1
    ∧ (handleGenerate st b env).requests
        = [buildRequest st.prompt st.size (env.apiKey.getD "")]
    ∧ (handleGenerate st b env).thrown = none := by
  have hsel : selGate st env =
      { st := { st with hasApiKey := true }, calls := 2, alerts := 1, thrown := none } := by
    simp [selGate, handleSelectKey, hkey, hai, h1, hmsg, h2]
  cases hres : generateImage st.prompt st.size env.apiKey env.network with
  | ok r =>
    rw [handleGenerate_success_eq st b env u r hu hc (by rw [hsel]) hres, hsel]
    exact ⟨rfl, rfl, rfl, rfl⟩
  | error e =>
    rw [handleGenerate_error_eq st b env u e hu hc (by rw [hsel]) hres, hsel]
    exact ⟨rfl, rfl, rfl, rfl⟩

theorem C7_witness :
    (handleGenerate demoStNoKey demoB demoEnvEnf).selectCalls = 2
    ∧ (handleGenerate demoStNoKey demoB demoEnvEnf).alerts = 1
    ∧ (handleGenerate demoStNoKey demoB demoEnvEnf).requests
        = [buildRequest "a cat" Size.r1K "KEY"]
    ∧ (handleGenerate demoStNoKey demoB demoEnvEnf).thrown = none :=
  C7_entity_not_found_retried_once demoStNoKey demoB demoEnvEnf demoUser
    "Requested entity was not found" rfl (by decide) rfl rfl rfl (by decide) rfl

/-- C10: when no user record is loaded, the submission handler is a
complete no-op: the component state (error message included), the backend,
and every effect counter are untouched, and no credential check and no
network call happen. -/
theorem C10_no_user_noop (st : GenState) (b : Backend) (env : Env)
    (h : st.user = none) :
    handleGenerate st b env =
      { st := st, backend := b, requests := [], debits := [], events := [],
        selectCalls := 0, alerts := 0, thrown := none } :=
  handleGenerate_noUser_eq st b env h

theorem C10_witness :
    handleGenerate demoStNoUser demoB demoEnv =
      { st := demoStNoUser, backend := demoB, requests := [], debits := [], events := [],
        selectCalls := 0, alerts := 0, thrown := none } :=
  C10_no_user_noop demoStNoUser demoB demoEnv rfl

/-- C3, counterexample to the claim as stated: the response whose candidates
list is present but empty contains zero image-carrying parts, yet the client
fails with the TypeError of the `candidates[0].content` access, not with the
no-image Error. -/
theorem C3_empty_candidates_counterexample :
    generateImage "a cat" Size.r1K none (fun _ => Except.ok { candidates := some [] })
      = Except.error JsError.typeError
    ∧ JsError.typeError ≠ JsError.error "No image generated in response" :=
  ⟨rfl, by decide⟩

/-- C3, amended: for every service response whose candidates field is absent,
or whose first candidate has absent parts or only image-free parts, the
client fails with the no-image Error; and whenever the client fails, the
controller leaves the backend untouched and performs no debit. (A response
with a present but empty candidates list instead fails with a TypeError,
likewise without debit or history write.) -/
theorem C3_no_image_fails_without_debit
    (st : GenState) (b : Backend) (env : Env) (resp : GenResponse)
    (hnet : env.network (buildRequest st.prompt st.size (env.apiKey.getD ""))
        = Except.ok resp)
    (hresp : firstCandidateNoImage resp = true) :
    generateImage st.prompt st.size env.apiKey env.network
        = Except.error (JsError.error "No image generated in response")
    ∧ (handleGenerate st b env).backend = b
    ∧ (handleGenerate st b env).debits = [] := by
  have hgen : generateImage st.prompt st.size env.apiKey env.network
      = Except.error (JsError.error "No image generated in response") := by
    unfold generateImage
    rw [hnet]
    exact parseResponse_noImage resp hresp
  obtain ⟨h1, h2⟩ := handleGenerate_backend_of_error st b env _ hgen
  exact ⟨hgen, h1, h2⟩

theorem C3_witness :
    generateImage "a cat" Size.r1K (some "KEY") demoEnvNoImg.network
        = Except.error (JsError.error "No image generated in response")
    ∧ (handleGenerate demoSt demoB demoEnvNoImg).backend = demoB
    ∧ (handleGenerate demoSt demoB demoEnvNoImg).debits = [] :=
  C3_no_image_fails_without_debit demoSt demoB demoEnvNoImg noImgResp rfl (by decide)

/-- C4, counterexample to the claim as stated: a response holding its only
image-carrying part in the second candidate is not returned; the client
fails with the no-image Error because only the first candidate is scanned. -/
theorem C4_second_candidate_counterexample :
    generateImage "a cat" Size.r1K none (fun _ => Except.ok secondCandResp)
      = Except.error (JsError.error "No image generated in response")
    ∧ (Except.error (JsError.error "No image generated in response")
        : Except JsError GenResult)
      ≠ Except.ok { imageUrl := "data:image/png;base64,IMG" } :=
  ⟨rfl, fun h => Except.noConfusion h⟩

/-- C4, amended: for every service response whose FIRST CANDIDATE's parts
contain at least one image-carrying part, the client returns the payload of
the first such part, wrapped verbatim (no base64 decoding) into a data URI
with the fixed PNG media type, and ignores all subsequent parts and all
subsequent candidates. -/
theorem C4_returns_first_image_of_first_candidate
    (prompt : String) (size : Size) (apiKey : Option String)
    (network : GenRequest → Except JsError GenResponse)
    (pre post : List Part) (d : InlineData) (crest : List Candidate) (resp : GenResponse)
    (hnet : network (buildRequest prompt size (apiKey.getD "")) = Except.ok resp)
    (hcands : resp.candidates = some
        ({ content := { parts := some (pre ++ { inlineData := some d } :: post) } } :: crest))
    (hpre : pre.all (fun q => q.inlineData.isNone) = true) :
    generateImage prompt size apiKey network
      = Except.ok { imageUrl := "data:image/png;base64," ++ d.data } := by
  unfold generateImage
  rw [hnet]
  obtain ⟨oc⟩ := resp
  simp only at hcands
  subst hcands
  exact parseResponse_first_image pre post d crest hpre

theorem C4_witness :
    generateImage "a cat" Size.r1K (some "KEY") (fun _ => Except.ok mixedResp)
      = Except.ok { imageUrl := "data:image/png;base64,IMG" } :=
  C4_returns_first_image_of_first_candidate "a cat" Size.r1K (some "KEY")
    (fun _ => Except.ok mixedResp)
    [{ inlineData := none }] [{ inlineData := some { data := "ZZZ" } }]
    { data := "IMG" } [] mixedResp rfl rfl (by decide)

/-- C8, counterexample to the claim as stated: the client performs no prompt
validation; a call with the empty prompt is not rejected locally but goes to
the external service and here even succeeds. -/
theorem C8_empty_prompt_counterexample :
    generateImage "" Size.r1K none (fun _ => Except.ok demoResp)
      = Except.ok { imageUrl := "data:image/png;base64,IMG" } := rfl

/-- C8, amended: the request client performs no runtime input validation:
an empty prompt is passed through verbatim as the request's single text part
and the call proceeds (its outcome is fully determined by the service
response); the resolution can only be one of the three defined tiers because
its type has exactly those three values; and an absent credential is passed
through to the service as the empty string rather than rejected locally. -/
theorem C8_no_local_validation
    (size : Size) (apiKey : Option String)
    (network : GenRequest → Except JsError GenResponse) (resp : GenResponse)
    (hnet : network (buildRequest "" size (apiKey.getD "")) = Except.ok resp) :
    generateImage "" size apiKey network = parseResponse resp
    ∧ (buildRequest "" size (apiKey.getD "")).parts = [""]
    ∧ (buildRequest "" size ((none : Option String).getD "")).apiKey = ""
    ∧ (∀ s : Size, s = Size.r1K ∨ s = Size.r2K ∨ s = Size.r4K) := by
  refine ⟨?_, rfl, rfl, ?_⟩
  · unfold generateImage
    rw [hnet]
  · intro s
    cases s
    · exact Or.inl rfl
    · exact Or.inr (Or.inl rfl)
    · exact Or.inr (Or.inr rfl)

theorem C8_witness :
    generateImage "" Size.r1K none (fun _ => Except.ok demoResp) = parseResponse demoResp
    ∧ (buildRequest "" Size.r1K ((none : Option String).getD "")).parts = [""]
    ∧ (buildRequest "" Size.r1K ((none : Option String).getD "")).apiKey = ""
    ∧ (∀ s : Size, s = Size.r1K ∨ s = Size.r2K ∨ s = Size.r4K) :=
  C8_no_local_validation Size.r1K none (fun _ => Except.ok demoResp) demoResp rfl

/-- C9: the client inspects only the content parts of the first candidate:
the parse result of a response is unchanged when every candidate after the
first is dropped (so an image in a later candidate is never returned), a
present but empty candidates list never yields a success, an absent
candidates field never yields a success, and a first candidate with absent
parts never yields a success. -/
theorem C9_only_first_candidate_inspected (c : Candidate) (rest : List Candidate) :
    parseResponse { candidates := some (c :: rest) }
        = parseResponse { candidates := some [c] }
    ∧ (∀ s, parseResponse { candidates := some [] } ≠ Except.ok s)
    ∧ (∀ s, parseResponse ({ candidates := none } : GenResponse) ≠ Except.ok s)
    ∧ (c.content.parts = none →
        ∀ s, parseResponse { candidates := some (c :: rest) } ≠ Except.ok s) := by
  refine ⟨rfl, ?_, ?_, ?_⟩
  · intro s h
    exact Except.noConfusion h
  · intro s h
    exact Except.noConfusion h
  · intro hp s h
    obtain ⟨⟨op⟩⟩ := c
    simp only at hp
    subst hp
    exact Except.noConfusion h

theorem C9_witness :
    parseResponse { candidates := some [cNoParts, cImg] }
        = parseResponse { candidates := some [cNoParts] }
    ∧ (∀ s, parseResponse { candidates := some [cNoParts, cImg] } ≠ Except.ok s) := by
  obtain ⟨h1, h2, h3, h4⟩ := C9_only_first_candidate_inspected cNoParts [cImg]
  exact ⟨h1, h4 rfl⟩

end ImgGen
